import Mathlib

/-!
Shallow embedding of the linkedin-ai-scraper core pipeline and job controller.

Profile records are Python dicts built in `linkedin_scraper._extract_single_profile`:
the descriptive fields are strings, `follower_count` is an optional integer, and the
derived scores are optional rationals (floats in the source; the arithmetic here is
exact on the literals involved, so rationals embed it faithfully).  Python falsiness
of a field value (empty string, `None`, integer `0`) is embedded in the presence
tests below.  Stateful code (the Flask job controller in `web_app.py`) is embedded
as explicit state passing over a `JobStatus` structure; the background workflow is a
pure function of an environment that supplies the collaborator results, and
cooperative cancellation is the interleaving of `stop_scraping` between loop steps.
-/

namespace Scraper

/-- Profile record as built by the scraper: raw fields plus derived scores.
Missing dict keys are embedded as `""` / `none`, matching the `.get` defaults
used by the source. -/
structure Profile where
  name : String
  headline : String
  location : String
  profile_url : String
  company : String
  follower_count : Option Int
  keyword_matched : String
  confidence_score : Option ℚ
  profile_completeness : Option ℚ
  quality_score : Option ℚ
deriving DecidableEq

/-- Default profile: every field absent. -/
def Profile.empty : Profile :=
  ⟨"", "", "", "", "", none, "", none, none, none⟩

/-- Python default whitespace for `str.strip()`: space, tab, newline, vertical
tab, form feed, carriage return (by character code). -/
def isPyWs (n : Nat) : Bool :=
  (n == 32) || ((9 ≤ n) && (n ≤ 13))

/-- Embeds Python `str.strip()` on the character list of a string. -/
def stripChars (l : List Char) : List Char :=
  (((l.dropWhile (fun c => isPyWs c.toNat)).reverse.dropWhile (fun c => isPyWs c.toNat))).reverse

/-- Embeds `profile_data.get(field) and str(profile_data[field]).strip()` for a
string-valued field (utils.py lines 64-71): truthy (non-empty) and not
whitespace-only after stripping. -/
def strPresent (s : String) : Bool :=
  !s.toList.isEmpty && !(stripChars s.toList).isEmpty

/-- Embeds the same presence test for the optional-integer `follower_count`
field: `None` is falsy and the integer `0` is falsy; `str(n).strip()` of an
integer is a non-empty digit string for every `n`, so that conjunct is always
true and is dropped. -/
def fcPresent (o : Option Int) : Bool :=
  match o with
  | none => false
  | some n => n != 0

/-- Embeds the bare truthiness test `if profile_data.get(follower_count):`
used by `calculate_confidence_score` (utils.py line 84). -/
def fcTruthy (o : Option Int) : Bool :=
  match o with
  | none => false
  | some n => n != 0

/-- Embeds `utils.calculate_profile_completeness`: required fields add 1.0,
optional fields add 0.5, divided by the 6 total fields.  The Python loop over
the two static field lists is unrolled. -/
def calculate_profile_completeness (p : Profile) : ℚ :=
  let score : ℚ := 0
  let score := if strPresent p.name then score + 1 else score
  let score := if strPresent p.headline then score + 1 else score
  let score := if strPresent p.location then score + 1 else score
  let score := if strPresent p.profile_url then score + 1 else score
  let score := if strPresent p.company then score + 1/2 else score
  let score := if fcPresent p.follower_count then score + 1/2 else score
  score / 6

/-- ASCII lower-casing by character code, embedding `str.lower()` on the
ASCII range. -/
def lowerNat (n : Nat) : Nat :=
  if 65 ≤ n ∧ n ≤ 90 then n + 32 else n

/-- Case-insensitive character equality (ASCII case folding). -/
def charEqCI (a b : Char) : Bool :=
  lowerNat a.toNat == lowerNat b.toNat

/-- Case-insensitive prefix test on character lists: `needle` is a prefix of
`hay` up to case. -/
def charsStartWithCI : List Char → List Char → Bool
  | _, [] => true
  | [], _ :: _ => false
  | a :: as, b :: bs => charEqCI a b && charsStartWithCI as bs

/-- Case-insensitive containment on character lists, embedding the Python
`needle.lower() in hay.lower()` test (true at every suffix start, and the
empty needle is contained in anything). -/
def charsContainCI : List Char → List Char → Bool
  | [], needle => needle.isEmpty
  | a :: t, needle => charsStartWithCI (a :: t) needle || charsContainCI t needle

/-- Embeds Python `needle.lower() in hay.lower()` for strings. -/
def strContainsCI (hay needle : String) : Bool :=
  charsContainCI hay.toList needle.toList

/-- Embeds `utils.calculate_confidence_score`: base 0.5, plus completeness
times 0.3, plus 0.1 when `follower_count` is truthy, plus 0.1 when the matched
keyword occurs (case-insensitively) in the headline, clamped to at most 1.0. -/
def calculate_confidence_score (p : Profile) (keyword_matched : String) : ℚ :=
  let base : ℚ := 1/2
  let base := base + calculate_profile_completeness p * (3/10)
  let base := if fcTruthy p.follower_count then base + 1/10 else base
  let base := if strContainsCI p.headline keyword_matched then base + 1/10 else base
  min base 1

/-- Keep-first deduplication by `profile_url`, the documented semantics of
`pandas drop_duplicates on profile_url with keep-first`
(data_processor.py line 81): walk the rows, dropping any row whose key was
already seen. -/
def dropDupFirst : List Profile → List String → List Profile
  | [], _ => []
  | p :: t, seen =>
    if p.profile_url ∈ seen then dropDupFirst t seen
    else p :: dropDupFirst t (p.profile_url :: seen)

/-- Embeds `DataProcessor.deduplicate_profiles(new_profiles, existing_df)`:
an empty new-profile list short-circuits to `[]`; otherwise existing and new
rows are concatenated (existing first) and deduplicated keep-first on
`profile_url`.  The `existing_df.empty` branch of the source produces the same
concatenation when `existing = []`. -/
def deduplicate_profiles (new_profiles existing : List Profile) : List Profile :=
  match new_profiles with
  | [] => []
  | _ :: _ => dropDupFirst (existing ++ new_profiles) []

/-- Embeds `DataProcessor.filter_by_quality`: the loop appends a profile to
the accumulator when both scores (defaulting to 0 when missing, per
`profile.get(..., 0)`) meet their inclusive thresholds. -/
def filter_by_quality (profiles : List Profile)
    (min_confidence min_completeness : ℚ) : List Profile :=
  match profiles with
  | [] => []
  | _ :: _ =>
    profiles.foldl
      (fun acc p =>
        if min_confidence ≤ p.confidence_score.getD 0 ∧
            min_completeness ≤ p.profile_completeness.getD 0
        then acc ++ [p] else acc)
      []

/-- Embeds the augmentation loop of `DataProcessor.sort_by_quality`:
`quality_score = confidence + completeness` with `.get(..., 0)`
defaults. -/
def addQuality (p : Profile) : Profile :=
  { p with quality_score := some (p.confidence_score.getD 0 + p.profile_completeness.getD 0) }

/-- Sort key `x.get(quality_score, 0)` of `DataProcessor.sort_by_quality`. -/
def keyOf (p : Profile) : ℚ :=
  p.quality_score.getD 0

/-- The descending-by-key relation used to embed
`sorted(profiles, key=..., reverse=True)`. -/
def qGe (a b : Profile) : Prop :=
  keyOf b ≤ keyOf a

instance : DecidableRel qGe :=
  fun a b => (inferInstance : Decidable (keyOf b ≤ keyOf a))

instance : IsTotal Profile qGe :=
  ⟨fun a b => le_total (keyOf b) (keyOf a)⟩

instance : IsTrans Profile qGe :=
  ⟨fun _ _ _ hab hbc => le_trans hbc hab⟩

/-- Embeds `DataProcessor.sort_by_quality`: set `quality_score` on every
record, then stable-sort descending by it.  Python `sorted` is stable;
insertion sort with `qGe` (insert before the first element whose key is not
greater) is the unique stable descending sort, so it embeds `sorted` exactly. -/
def sort_by_quality (profiles : List Profile) : List Profile :=
  match profiles with
  | [] => []
  | _ :: _ => List.insertionSort qGe (profiles.map addQuality)

/-- A value of the summary report dict built by
`DataProcessor.generate_summary_report`: a number or a nested frequency table. -/
inductive SummaryVal where
  | num (q : ℚ)
  | table (t : List (String × Nat))
deriving DecidableEq

/-- Embeds `DataProcessor.generate_summary_report` as the association list of
keys the source builds.  On an empty profile list the source returns the empty
dict `{}` (data_processor.py lines 127-128).  Column means skip missing values
(pandas `mean` over non-null entries; the all-missing mean is taken as 0 here,
via rational division by zero).  `nunique` counts distinct values, and
`value_counts` is embedded as an unordered key-to-count table. -/
def generate_summary_report (profiles : List Profile) : List (String × SummaryVal) :=
  match profiles with
  | [] => []
  | _ :: _ =>
    let confVals := profiles.filterMap (fun p => p.confidence_score)
    let compVals := profiles.filterMap (fun p => p.profile_completeness)
    let folVals := profiles.filterMap (fun p => p.follower_count)
    let keywords := profiles.map (fun p => p.keyword_matched)
    [("total_profiles", .num (profiles.length : ℚ)),
     ("unique_companies", .num ((profiles.map (fun p => p.company)).dedup.length : ℚ)),
     ("unique_locations", .num ((profiles.map (fun p => p.location)).dedup.length : ℚ)),
     ("avg_confidence_score", .num (confVals.sum / (confVals.length : ℚ))),
     ("avg_profile_completeness", .num (compVals.sum / (compVals.length : ℚ))),
     ("avg_follower_count", .num ((folVals.sum : ℚ) / (folVals.length : ℚ))),
     ("keyword_distribution", .table (keywords.dedup.map (fun k => (k, keywords.count k)))),
     ("follower_ranges", .table
       [("1k-2k", (folVals.filter (fun n => 1000 ≤ n && n < 2000)).length),
        ("2k-5k", (folVals.filter (fun n => 2000 ≤ n && n < 5000)).length),
        ("5k-10k", (folVals.filter (fun n => 5000 ≤ n && n ≤ 10000)).length)])]

/-- The `job_status` global dict of `web_app.py` (lines 18-27).  Timestamps are
abstract naturals; `progress` is rational (float in the source). -/
structure JobStatus where
  running : Bool
  progress : ℚ
  message : String
  total_profiles : Nat
  found_profiles : Nat
  start_time : Option Nat
  end_time : Option Nat
  error : Option String
deriving DecidableEq

/-- The two 400-errors of the `/start_scraping` endpoint. -/
inductive StartError where
  | alreadyRunning
  | invalidInput
deriving DecidableEq

/-- The 400-error of the `/stop_scraping` endpoint. -/
inductive StopError where
  | noJobRunning
deriving DecidableEq

/-- The fresh status installed by `job_status.update({...})` in
`start_scraping` (web_app.py lines 334-343). -/
def freshRunningStatus (now : Nat) : JobStatus :=
  { running := true, progress := 0, message := "Initializing scraper...",
    total_profiles := 0, found_profiles := 0, start_time := some now,
    end_time := none, error := none }

/-- Embeds the request-handling part of `start_scraping` (web_app.py lines
317-343): reject when a job is running (leaving the status untouched), reject
when either credential is missing or empty (a missing JSON key yields `None`,
embedded like the empty string: both are falsy), otherwise install the fresh
running status.  Launching the background thread is embedded by the separate
`run_scraping` function below; the endpoint returns without executing it. -/
def start_scraping (st : JobStatus) (email password : String) (now : Nat) :
    Option StartError × JobStatus :=
  if st.running then (some .alreadyRunning, st)
  else if email = "" ∨ password = "" then (some .invalidInput, st)
  else (none, freshRunningStatus now)

/-- Embeds `stop_scraping` (web_app.py lines 465-475): when a job runs, clear
the `running` flag (which is the cancellation flag the workflow polls) and set
the stopping message; otherwise report that no job is running. -/
def stop_scraping (st : JobStatus) : Option StopError × JobStatus :=
  if st.running then
    (none, { st with running := false, message := "Stopping scraper..." })
  else (some .noJobRunning, st)

/-- Environment of one workflow run: everything the background thread obtains
from the collaborator and the configuration (web_app.py lines 346-456).
`ctorExn` injects an exception raised while constructing the collaborator —
`Config()` or `LinkedInScraper(config)` at lines 355-356, which launch a
browser and routinely raise — before the local `scraper` variable is bound;
`exn` injects an exception escaping the try-body after construction (raised
by a collaborator or pandas call during the run); `saveOk` is the outcome of
the CSV write. -/
structure ScrapeEnv where
  loginOk : Bool
  searchResults : String → List Profile
  companyResults : String → List Profile
  searchKeywords : List String
  targetCompanies : List String
  existingProfiles : List Profile
  minConfidence : ℚ
  minCompleteness : ℚ
  saveOk : Bool
  ctorExn : Option String
  exn : Option String
  now : Nat

/-- Embeds one search loop of `run_scraping` (web_app.py lines 376-403): the
cancellation flag is checked before each item (if not running: break); an item updates the message, extends the accumulated profiles, bumps
the search counter, and recomputes progress and `found_profiles`. -/
def loopSearches (results : String → List Profile) (msgPrefix : String) (total : Nat) :
    List String → JobStatus × List Profile × Nat → JobStatus × List Profile × Nat
  | [], s => s
  | item :: rest, (st, acc, cur) =>
    if st.running then
      let st1 := { st with message := msgPrefix ++ item }
      let acc1 := acc ++ results item
      let cur1 := cur + 1
      let st2 := { st1 with progress := 10 + ((cur1 : ℚ) / (total : ℚ)) * 70, found_profiles := acc1.length }
      loopSearches results msgPrefix total rest (st2, acc1, cur1)
    else (st, acc, cur)

/-- Embeds `DataProcessor.save_profiles_to_csv` as seen by the workflow: an
empty list returns `False` without writing; otherwise the write succeeds or
fails per the environment. -/
def saveProfilesToCsv (env : ScrapeEnv) (profiles : List Profile) : Bool :=
  match profiles with
  | [] => false
  | _ :: _ => env.saveOk

/-- Embeds the processing block of `run_scraping` (web_app.py lines 405-440):
set the processing message and progress 80; with no accumulated profiles record
the no-profiles error; otherwise deduplicate, quality-filter, sort, save, and
on success set the success message, `total_profiles`, and progress 100, else
record the save error. -/
def processAndSave (env : ScrapeEnv) (st : JobStatus) (all_profiles : List Profile) :
    JobStatus :=
  let st := { st with message := "Processing and saving profiles...", progress := 80 }
  match all_profiles with
  | [] => { st with error := some "No profiles found during search" }
  | _ :: _ =>
    let deduplicated := deduplicate_profiles all_profiles env.existingProfiles
    let filtered := filter_by_quality deduplicated env.minConfidence env.minCompleteness
    let sorted := sort_by_quality filtered
    if saveProfilesToCsv env sorted then
      { st with message := "Successfully saved " ++ toString sorted.length ++ " profiles!",
                total_profiles := sorted.length, progress := 100 }
    else { st with error := some "Failed to save profiles to CSV" }

/-- Outcome of one workflow run: the final job status, whether the
collaborator close call executed, and whether an exception propagated out of
the workflow function uncaught.  An escaped exception terminates the daemon
worker thread (its traceback is printed by the threading machinery); the host
process survives a worker exception either way. -/
structure RunOutcome where
  status : JobStatus
  closed : Bool
  escaped : Bool
deriving DecidableEq

/-- Embeds the `finally` block of `run_scraping` (web_app.py lines 446-451):
clear `running`, stamp `end_time`, then run `if scraper: scraper.close()`.
When the local `scraper` was bound (construction at line 356 succeeded) it is
a live, truthy driver object, so the close call runs and nothing escapes.
When construction raised first, `scraper` was never assigned, so the
truthiness test itself raises UnboundLocalError: the close call does not run
and that new exception escapes the workflow function uncaught. -/
def finalizeJob (now : Nat) (scraperBound : Bool) (st : JobStatus) : RunOutcome :=
  let st := { st with running := false, end_time := some now }
  if scraperBound then { status := st, closed := true, escaped := false }
  else { status := st, closed := false, escaped := true }

/-- Embeds the exception handler of `run_scraping` (web_app.py lines 442-444):
record the formatted error string; the `finally` block then runs. -/
def handleScrapeError (m : String) (st : JobStatus) : JobStatus :=
  { st with error := some ("Scraping failed: " ++ m) }

/-- Embeds the background workflow `run_scraping` (web_app.py lines 346-451)
as a pure state transformer.  A construction exception (before the local
`scraper` is bound, lines 355-356) is caught and recorded by the handler, but
the `finally` block then hits the unbound local: close does not run and the
UnboundLocalError escapes.  After construction, the login message is set (line
359); the login-failure path records its error and returns early (the
`finally` block still runs); otherwise the keyword loop and then the company
loop accumulate profiles; an injected exception is caught by the handler;
otherwise the processing block runs.  Every path ends in `finalizeJob`, with
`scraper` bound on every post-construction path.  This function models an
uninterrupted run: cooperative cancellation is modelled by interleaving
`stop_scraping` between loop steps, as in the scenario definition below. -/
def run_scraping (env : ScrapeEnv) (st0 : JobStatus) : RunOutcome :=
  match env.ctorExn with
  | some m => finalizeJob env.now false (handleScrapeError m st0)
  | none =>
    let st := { st0 with message := "Logging into LinkedIn..." }
    if env.loginOk then
      let st := { st with message := "Starting comprehensive search...", progress := 10 }
      let total := env.searchKeywords.length + env.targetCompanies.length
      let s1 := loopSearches env.searchResults "Searching: " total env.searchKeywords (st, [], 0)
      let s2 := loopSearches env.companyResults "Searching company: " total env.targetCompanies s1
      match env.exn with
      | some m => finalizeJob env.now true (handleScrapeError m s2.1)
      | none => finalizeJob env.now true (processAndSave env s2.1 s2.2.1)
    else
      finalizeJob env.now true
        { st with error := some "Failed to login to LinkedIn. Check credentials.", running := false }

/-! Spec-side definitions, written from the specification text, for comparison
with the embedded source functions. -/

/-- Number of present required fields (name, headline, location, profile_url),
for the closed-form completeness formula stated by the spec. -/
def reqCount (p : Profile) : Nat :=
  (if strPresent p.name then 1 else 0) + (if strPresent p.headline then 1 else 0)
    + (if strPresent p.location then 1 else 0) + (if strPresent p.profile_url then 1 else 0)

/-- Number of present optional fields (company, follower_count). -/
def optCount (p : Profile) : Nat :=
  (if strPresent p.company then 1 else 0) + (if fcPresent p.follower_count then 1 else 0)

/-- Deduplication as the spec words it: keep the first occurrence of each
`profile_url` group, preserving the relative order of first occurrences.
Each kept head removes the later members of its group. -/
def dedupSpec : List Profile → List Profile
  | [] => []
  | p :: t => p :: dedupSpec (t.filter (fun q => q.profile_url != p.profile_url))
termination_by l => l.length
decreasing_by
  simp only [List.length_cons]
  exact Nat.lt_succ_of_le (List.length_filter_le _ _)

/-- A fully populated profile (every required and optional field present). -/
def fullProfile : Profile :=
  { name := "Jane Doe", headline := "Automation Expert", location := "New York",
    profile_url := "https://www.linkedin.com/in/janedoe", company := "Acme",
    follower_count := some 5000, keyword_matched := "automation",
    confidence_score := none, profile_completeness := none, quality_score := none }

/-- C3: completeness equals the closed-form field count formula over 6 fields,
lies in the unit interval, is 0 on the all-empty record, and — as amended — is
5/6 (not 1.0) on an all-present record, because the two optional fields
contribute only 0.5 each against the 6-field denominator. -/
theorem completeness_formula (p : Profile) :
    calculate_profile_completeness p
        = ((reqCount p : ℚ) * 1 + (optCount p : ℚ) * (1/2)) / 6
      ∧ 0 ≤ calculate_profile_completeness p
      ∧ calculate_profile_completeness p ≤ 1
      ∧ calculate_profile_completeness Profile.empty = 0
      ∧ calculate_profile_completeness fullProfile = 5/6 := by
  have key : calculate_profile_completeness p
        = ((reqCount p : ℚ) * 1 + (optCount p : ℚ) * (1/2)) / 6
      ∧ 0 ≤ calculate_profile_completeness p
      ∧ calculate_profile_completeness p ≤ 1 := by
    simp only [calculate_profile_completeness, reqCount, optCount]
    cases h1 : strPresent p.name <;> cases h2 : strPresent p.headline <;>
      cases h3 : strPresent p.location <;> cases h4 : strPresent p.profile_url <;>
      cases h5 : strPresent p.company <;> cases h6 : fcPresent p.follower_count <;>
      norm_num
  refine ⟨key.1, key.2.1, key.2.2, ?_, ?_⟩
  · have he : strPresent "" = false := by decide
    simp [calculate_profile_completeness, Profile.empty, he, fcPresent]
  · have h1 : strPresent "Jane Doe" = true := by decide
    have h2 : strPresent "Automation Expert" = true := by decide
    have h3 : strPresent "New York" = true := by decide
    have h4 : strPresent "https://www.linkedin.com/in/janedoe" = true := by decide
    have h5 : strPresent "Acme" = true := by decide
    simp only [calculate_profile_completeness, fullProfile, h1, h2, h3, h4, h5, fcPresent]
    norm_num

/-- C3 counterexample: the claim asserts completeness 1.0 for an all-present
record, but the source yields 5/6 there. -/
theorem completeness_all_present_not_one :
    calculate_profile_completeness fullProfile = 5/6 ∧ (5/6 : ℚ) ≠ 1 := by
  constructor
  · have h1 : strPresent "Jane Doe" = true := by decide
    have h2 : strPresent "Automation Expert" = true := by decide
    have h3 : strPresent "New York" = true := by decide
    have h4 : strPresent "https://www.linkedin.com/in/janedoe" = true := by decide
    have h5 : strPresent "Acme" = true := by decide
    simp only [calculate_profile_completeness, fullProfile, h1, h2, h3, h4, h5, fcPresent]
    norm_num
  · norm_num

/-- A record carrying only a profile URL, all other fields absent. -/
def urlProfile (u : String) : Profile :=
  { Profile.empty with profile_url := u }

/-- The keep-first walk with a seen-set equals the spec wording of dedup,
restricted to the keys not yet seen. -/
theorem dropDupFirst_eq_dedupSpec (l : List Profile) :
    ∀ seen, dropDupFirst l seen
      = dedupSpec (l.filter fun q => decide (q.profile_url ∉ seen)) := by
  induction l with
  | nil => intro seen; simp [dropDupFirst, dedupSpec]
  | cons p t ih =>
    intro seen
    by_cases h : p.profile_url ∈ seen
    · rw [dropDupFirst, if_pos h, ih]
      simp [List.filter_cons, h]
    · rw [dropDupFirst, if_neg h, ih]
      have hp : (decide (p.profile_url ∉ seen)) = true := by simp [h]
      rw [List.filter_cons, hp]
      rw [if_pos rfl, dedupSpec.eq_2, List.filter_filter]
      congr 1
      have hfe : List.filter (fun a => a.profile_url != p.profile_url
            && decide (a.profile_url ∉ seen)) t
          = List.filter (fun q => decide (q.profile_url ∉ p.profile_url :: seen)) t := by
        apply List.filter_congr
        intro q _
        by_cases hq : q.profile_url = p.profile_url <;> by_cases hs : q.profile_url ∈ seen <;>
          simp [hq, hs, List.mem_cons]
      rw [hfe]

/-- The keep-first walk leaves a list untouched when its keys are pairwise
distinct and disjoint from the seen-set. -/
theorem dropDupFirst_of_pairwise (l : List Profile) :
    ∀ seen, (∀ r ∈ l, r.profile_url ∉ seen)
      → l.Pairwise (fun a b => a.profile_url ≠ b.profile_url)
      → dropDupFirst l seen = l := by
  induction l with
  | nil => intro seen _ _; rfl
  | cons p t ih =>
    intro seen hseen hpw
    rw [List.pairwise_cons] at hpw
    rw [dropDupFirst, if_neg (hseen p (List.mem_cons_self p t))]
    congr 1
    apply ih
    · intro r hr
      simp only [List.mem_cons, not_or]
      exact ⟨fun he => (hpw.1 r hr) he.symm, hseen r (List.mem_cons_of_mem p hr)⟩
    · exact hpw.2

/-- C1 (amended): when the new-record list is non-empty, `deduplicate_profiles`
returns the deduplicated union of existing-then-new, keeping the first
occurrence per `profile_url` and preserving the order of first occurrences;
in particular the a/b + b/c example yields a, b, c.  (Being a pure function of
its arguments, the embedding mutates nothing.) -/
theorem dedup_union (new existing : List Profile) (hne : new ≠ [])
    (hurl : ∀ r ∈ existing ++ new, r.profile_url ≠ "") :
    deduplicate_profiles new existing = dedupSpec (existing ++ new)
      ∧ deduplicate_profiles [urlProfile "b", urlProfile "c"]
          [urlProfile "a", urlProfile "b"]
        = [urlProfile "a", urlProfile "b", urlProfile "c"] := by
  constructor
  · match new, hne with
    | p :: t, _ =>
      show dropDupFirst (existing ++ p :: t) [] = _
      rw [dropDupFirst_eq_dedupSpec]
      congr 1
      apply List.filter_eq_self.mpr
      intro a _
      simp
  · decide

/-- C1 counterexample: with an empty new-record list the source returns `[]`,
not the deduplicated union of the two inputs (which would be the existing
record). -/
theorem dedup_empty_new_counterexample :
    deduplicate_profiles [] [urlProfile "a"] = []
      ∧ deduplicate_profiles [] [urlProfile "a"] ≠ dedupSpec ([urlProfile "a"] ++ []) := by
  constructor
  · rfl
  · rw [List.append_nil]
    have h1 : dedupSpec [urlProfile "a"] = [urlProfile "a"] := by simp [dedupSpec]
    rw [h1]
    simp [deduplicate_profiles]

/-- C1 witness: the amended dedup theorem applied at the concrete a/b + b/c
inputs of the spec. -/
theorem dedup_union_witness :
    deduplicate_profiles [urlProfile "b", urlProfile "c"] [urlProfile "a", urlProfile "b"]
        = dedupSpec ([urlProfile "a", urlProfile "b"] ++ [urlProfile "b", urlProfile "c"])
      ∧ deduplicate_profiles [urlProfile "b", urlProfile "c"]
          [urlProfile "a", urlProfile "b"]
        = [urlProfile "a", urlProfile "b", urlProfile "c"] :=
  dedup_union [urlProfile "b", urlProfile "c"] [urlProfile "a", urlProfile "b"]
    (by decide) (by decide)

/-- C10: running dedup on an already-deduplicated record set (pairwise
distinct, non-empty URLs) returns the same records in the same order. -/
theorem dedup_idempotent (S : List Profile)
    (hdist : S.Pairwise (fun a b => a.profile_url ≠ b.profile_url))
    (hurl : ∀ r ∈ S, r.profile_url ≠ "") :
    deduplicate_profiles S [] = S := by
  cases S with
  | nil => rfl
  | cons p t =>
    show dropDupFirst ([] ++ p :: t) [] = p :: t
    rw [List.nil_append]
    exact dropDupFirst_of_pairwise (p :: t) [] (by simp) hdist

/-- C10 witness: dedup of a concrete two-record deduplicated set is itself. -/
theorem dedup_idempotent_witness :
    deduplicate_profiles [urlProfile "a", urlProfile "b"] [] = [urlProfile "a", urlProfile "b"] :=
  dedup_idempotent [urlProfile "a", urlProfile "b"] (by decide) (by decide)

/-- C2: the confidence score equals the clamped sum of the base 0.5, the
completeness bonus, the follower bonus, and the case-insensitive headline
keyword bonus, and never exceeds 1.0. -/
theorem confidence_formula (p : Profile) (k : String) :
    calculate_confidence_score p k
        = min (1/2 + calculate_profile_completeness p * (3/10)
            + (if fcTruthy p.follower_count then (1/10 : ℚ) else 0)
            + (if strContainsCI p.headline k then (1/10 : ℚ) else 0)) 1
      ∧ calculate_confidence_score p k ≤ 1 := by
  constructor
  · simp only [calculate_confidence_score]
    cases h1 : fcTruthy p.follower_count <;>
      cases h2 : strContainsCI p.headline k <;>
      simp [h1, h2]
  · simp only [calculate_confidence_score]
    exact min_le_right _ _

/-- The keep-condition of the quality filter, as the spec words it: both
scores, defaulting to 0 when missing, meet their inclusive thresholds. -/
def qualityPred (mc mp : ℚ) (p : Profile) : Bool :=
  decide (mc ≤ p.confidence_score.getD 0 ∧ mp ≤ p.profile_completeness.getD 0)

/-- The append-accumulator loop of the quality filter is `List.filter`. -/
theorem filter_fold_eq (mc mp : ℚ) (ps : List Profile) :
    ∀ acc, ps.foldl
        (fun acc p =>
          if mc ≤ p.confidence_score.getD 0 ∧ mp ≤ p.profile_completeness.getD 0
          then acc ++ [p] else acc) acc
      = acc ++ ps.filter (qualityPred mc mp) := by
  induction ps with
  | nil => intro acc; simp
  | cons p t ih =>
    intro acc
    rw [List.foldl_cons, List.filter_cons]
    by_cases h : (mc ≤ p.confidence_score.getD 0 ∧ mp ≤ p.profile_completeness.getD 0)
    · rw [if_pos h, ih]
      have hq : qualityPred mc mp p = true := by simp [qualityPred, h.1, h.2]
      rw [hq]
      simp
    · rw [if_neg h, ih]
      have hq : qualityPred mc mp p = false := by
        simp only [qualityPred, decide_eq_false_iff_not]
        exact h
      rw [hq]
      simp

/-- A record with confidence 0.69 and completeness 0.9. -/
def conf069 : Profile :=
  { Profile.empty with confidence_score := some (69/100), profile_completeness := some (9/10) }

/-- A record with confidence exactly 0.7 and completeness exactly 0.6. -/
def conf070 : Profile :=
  { Profile.empty with confidence_score := some (7/10), profile_completeness := some (6/10) }

/-- A record missing its confidence score (completeness fully present). -/
def noConfScore : Profile :=
  { Profile.empty with profile_completeness := some 1 }

/-- C4: the quality filter keeps exactly the records whose scores (missing
scores read as 0) meet both inclusive thresholds, preserving order; at the
default thresholds (0.7, 0.6) confidence 0.69 is excluded, confidence exactly
0.7 is included, and a record missing its confidence score is excluded. -/
theorem filter_by_quality_spec (ps : List Profile) (mc mp : ℚ) :
    filter_by_quality ps mc mp = ps.filter (qualityPred mc mp)
      ∧ (∀ p, p ∈ filter_by_quality ps mc mp
          ↔ p ∈ ps ∧ mc ≤ p.confidence_score.getD 0 ∧ mp ≤ p.profile_completeness.getD 0)
      ∧ filter_by_quality [conf069] (7/10) (6/10) = []
      ∧ filter_by_quality [conf070] (7/10) (6/10) = [conf070]
      ∧ filter_by_quality [noConfScore] (7/10) (6/10) = [] := by
  have hmain : ∀ (qs : List Profile) (a b : ℚ),
      filter_by_quality qs a b = qs.filter (qualityPred a b) := by
    intro qs a b
    cases qs with
    | nil => rfl
    | cons q u =>
      show (q :: u).foldl _ [] = _
      rw [filter_fold_eq a b (q :: u) []]
      simp
  refine ⟨hmain ps mc mp, ?_, ?_, ?_, ?_⟩
  · intro p
    rw [hmain ps mc mp, List.mem_filter]
    simp [qualityPred, and_assoc]
  · rw [hmain]
    have h69 : qualityPred (7/10) (6/10) conf069 = false := by
      norm_num [qualityPred, conf069, Profile.empty]
    simp [List.filter_cons, h69]
  · rw [hmain]
    have h70 : qualityPred (7/10) (6/10) conf070 = true := by
      norm_num [qualityPred, conf070, Profile.empty]
    simp [List.filter_cons, h70]
  · rw [hmain]
    have hns : qualityPred (7/10) (6/10) noConfScore = false := by
      norm_num [qualityPred, noConfScore, Profile.empty]
    simp [List.filter_cons, hns]

/-- Inserting into a list commutes with filtering a single key class: the
inserted element lands in front of its own class (everything skipped over has
a strictly larger key) and leaves every other class untouched. -/
theorem filter_orderedInsert (p : Profile) (k : ℚ) (m : List Profile) :
    (List.orderedInsert qGe p m).filter (fun x => decide (keyOf x = k))
      = if keyOf p = k then p :: m.filter (fun x => decide (keyOf x = k))
        else m.filter (fun x => decide (keyOf x = k)) := by
  induction m with
  | nil =>
    by_cases hk : keyOf p = k <;> simp [List.orderedInsert, List.filter, hk]
  | cons b t ih =>
    rw [List.orderedInsert]
    by_cases hr : qGe p b
    · rw [if_pos hr]
      by_cases hk : keyOf p = k <;> simp [List.filter_cons, hk]
    · rw [if_neg hr, List.filter_cons]
      by_cases hbk : keyOf b = k
      · by_cases hk : keyOf p = k
        · exact absurd (show qGe p b by unfold qGe; rw [hbk, hk]) hr
        · simp [hbk, hk, ih, List.filter_cons]
      · by_cases hk : keyOf p = k <;> simp [hbk, hk, ih, List.filter_cons]

/-- Stability of the embedded sort: every key class of the output lists the
same records in the same order as in the input. -/
theorem filter_insertionSort (k : ℚ) (l : List Profile) :
    (List.insertionSort qGe l).filter (fun x => decide (keyOf x = k))
      = l.filter (fun x => decide (keyOf x = k)) := by
  induction l with
  | nil => rfl
  | cons a t ih =>
    rw [List.insertionSort, filter_orderedInsert, List.filter_cons]
    by_cases hk : keyOf a = k <;> simp [hk, ih]

/-- The empty-list guard folded away: the sort is insertion sort over the
augmented records in every case. -/
theorem sort_by_quality_eq (ps : List Profile) :
    sort_by_quality ps = List.insertionSort qGe (ps.map addQuality) := by
  cases ps <;> simp [sort_by_quality]

/-- Record A of the ranking example: quality 0.7 + 0.5 = 1.2. -/
def profA : Profile :=
  { Profile.empty with name := "A", confidence_score := some (7/10), profile_completeness := some (1/2) }

/-- Record B of the ranking example: quality 0.6 + 0.6 = 1.2 (ties A). -/
def profB : Profile :=
  { Profile.empty with name := "B", confidence_score := some (6/10), profile_completeness := some (6/10) }

/-- Record C of the ranking example: quality 0.4 + 0.5 = 0.9. -/
def profC : Profile :=
  { Profile.empty with name := "C", confidence_score := some (4/10), profile_completeness := some (1/2) }

/-- C5: the sort augments every record with
`quality_score = confidence + completeness`, returns a permutation of the
augmented records, sorted descending by quality score, stably (each key class
keeps its input order); the tied example [A, B, C] with qualities
[1.2, 1.2, 0.9] comes back in input order. -/
theorem sort_by_quality_spec (ps : List Profile) :
    (sort_by_quality ps).Perm (ps.map addQuality)
      ∧ (∀ r ∈ sort_by_quality ps,
          r.quality_score = some (r.confidence_score.getD 0 + r.profile_completeness.getD 0))
      ∧ (sort_by_quality ps).Sorted qGe
      ∧ (∀ k : ℚ, (sort_by_quality ps).filter (fun x => decide (keyOf x = k))
          = (ps.map addQuality).filter (fun x => decide (keyOf x = k)))
      ∧ sort_by_quality [profA, profB, profC]
        = [addQuality profA, addQuality profB, addQuality profC] := by
  rw [sort_by_quality_eq]
  refine ⟨List.perm_insertionSort qGe _, ?_, List.sorted_insertionSort qGe _, ?_, ?_⟩
  · intro r hr
    have hr2 : r ∈ ps.map addQuality := ((List.perm_insertionSort qGe _).mem_iff).mp hr
    obtain ⟨q, _, rfl⟩ := List.mem_map.mp hr2
    simp [addQuality]
  · intro k
    exact filter_insertionSort k _
  · rw [sort_by_quality_eq]
    have hBC : qGe (addQuality profB) (addQuality profC) := by
      show keyOf (addQuality profC) ≤ keyOf (addQuality profB)
      norm_num [keyOf, addQuality, profB, profC, Profile.empty]
    have hAB : qGe (addQuality profA) (addQuality profB) := by
      show keyOf (addQuality profB) ≤ keyOf (addQuality profA)
      norm_num [keyOf, addQuality, profA, profB, Profile.empty]
    simp [List.insertionSort, List.orderedInsert, hBC, hAB]

/-- C5 witness: the sort theorem applied at the concrete tied example,
discharging the membership hypothesis of its augmentation clause. -/
theorem sort_by_quality_witness :
    (sort_by_quality [profA, profB, profC]).Perm ([profA, profB, profC].map addQuality)
      ∧ (addQuality profA).quality_score
        = some ((addQuality profA).confidence_score.getD 0
            + (addQuality profA).profile_completeness.getD 0) := by
  have h := sort_by_quality_spec [profA, profB, profC]
  refine ⟨h.1, ?_⟩
  apply h.2.1
  rw [h.2.2.2.2]
  exact List.mem_cons_self _ _

/-- The module-level initial `job_status` of web_app.py (lines 18-27): idle,
nothing recorded. -/
def idleStatus : JobStatus :=
  { running := false, progress := 0, message := "", total_profiles := 0,
    found_profiles := 0, start_time := none, end_time := none, error := none }

/-- C6: starting while a job runs fails with the already-running error and
leaves the in-flight status (its progress included) untouched; missing or
empty credentials fail with the invalid-input error; otherwise the status is
reset to a fresh running state with progress 0, found_profiles 0, start_time
now and no error.  The workflow itself is the separate `run_scraping`
function: the endpoint returns without executing it, embedding the
non-blocking background launch. -/
theorem start_guard (st : JobStatus) (e p : String) (n : Nat) :
    (st.running = true → start_scraping st e p n = (some .alreadyRunning, st))
      ∧ (st.running = false → (e = "" ∨ p = "")
          → start_scraping st e p n = (some .invalidInput, st))
      ∧ (st.running = false → e ≠ "" → p ≠ ""
          → start_scraping st e p n = (none, freshRunningStatus n)
            ∧ (freshRunningStatus n).progress = 0
            ∧ (freshRunningStatus n).found_profiles = 0
            ∧ (freshRunningStatus n).start_time = some n
            ∧ (freshRunningStatus n).error = none
            ∧ (freshRunningStatus n).running = true) := by
  refine ⟨?_, ?_, ?_⟩
  · intro h
    simp [start_scraping, h]
  · intro h1 h2
    rcases h2 with h2 | h2 <;> simp [start_scraping, h1, h2]
  · intro h1 h2 h3
    exact ⟨by simp [start_scraping, h1, h2, h3], rfl, rfl, rfl, rfl, rfl⟩

/-- C6 witness: the start guard applied to a running status, to an idle status
with empty credentials, and to an idle status with full credentials. -/
theorem start_guard_witness :
    start_scraping (freshRunningStatus 0) "a@b.c" "pw" 1
        = (some StartError.alreadyRunning, freshRunningStatus 0)
      ∧ start_scraping idleStatus "" "pw" 1 = (some StartError.invalidInput, idleStatus)
      ∧ start_scraping idleStatus "a@b.c" "pw" 1 = (none, freshRunningStatus 1) := by
  have h1 := start_guard (freshRunningStatus 0) "a@b.c" "pw" 1
  have h2 := start_guard idleStatus "" "pw" 1
  have h3 := start_guard idleStatus "a@b.c" "pw" 1
  exact ⟨h1.1 rfl, h2.2.1 rfl (Or.inl rfl), (h3.2.2 rfl (by decide) (by decide)).1⟩

/-- The profile returned by the collaborator in the cancellation scenario:
scores above the (0.7, 0.6) thresholds so it survives the quality filter. -/
def scenarioProfile : Profile :=
  { name := "Jane", headline := "Automation Expert", location := "New York",
    profile_url := "https://www.linkedin.com/in/janedoe", company := "Acme",
    follower_count := some 5000, keyword_matched := "automation",
    confidence_score := some (8/10), profile_completeness := some (7/10),
    quality_score := none }

/-- Environment of the cancellation scenario: two keywords configured, the
first returning one valid profile, the config-default thresholds, a working
CSV sink, no injected exception. -/
def stopEnv : ScrapeEnv :=
  { loginOk := true,
    searchResults := fun k => if k = "kw1" then [scenarioProfile] else [],
    companyResults := fun _ => [],
    searchKeywords := ["kw1", "kw2"],
    targetCompanies := [],
    existingProfiles := [],
    minConfidence := 7/10,
    minCompleteness := 6/10,
    saveOk := true,
    ctorExn := none,
    exn := none,
    now := 42 }

/-- The interleaved run that `run_scraping stopEnv` performs when
`stop_scraping` lands between the first and the second keyword iteration:
the body of `run_scraping` after a successful construction and login, with
the stop request applied to the status after the first loop step.  The
remaining keyword loop, the company loop, the processing block and the
`finally` block (with `scraper` bound) then run as in the source. -/
def stopScenario : RunOutcome :=
  let st0 := { freshRunningStatus 0 with message := "Starting comprehensive search...", progress := 10 }
  let s1 := loopSearches stopEnv.searchResults "Searching: " 2 ["kw1"] (st0, [], 0)
  let stopped := (stop_scraping s1.1).2
  let s2 := loopSearches stopEnv.searchResults "Searching: " 2 ["kw2"] (stopped, s1.2.1, s1.2.2)
  let s3 := loopSearches stopEnv.companyResults "Searching company: " 2 stopEnv.targetCompanies s2
  finalizeJob stopEnv.now true (processAndSave stopEnv s3.1 s3.2.1)

/-- C7 (amended): stop fails with the no-job error exactly when nothing runs;
otherwise it clears the running flag (the cancellation flag the loop polls)
and sets the stopping message; the loop checks the flag before each item and
exits immediately once it is cleared, retaining the status (found_profiles
included); but the workflow then continues into the processing block, which
overwrites the stopping message — in the concrete scenario the final message
is the success notice, with found_profiles still 1. -/
theorem stop_cancellation (st : JobStatus) :
    (st.running = false → stop_scraping st = (some .noJobRunning, st))
      ∧ (st.running = true → stop_scraping st
          = (none, { st with running := false, message := "Stopping scraper..." }))
      ∧ (∀ (results : String → List Profile) (pfx : String) (total : Nat)
          (items : List String) (s : JobStatus × List Profile × Nat),
          s.1.running = false → loopSearches results pfx total items s = s)
      ∧ (stopScenario.status.found_profiles = 1 ∧ stopScenario.status.running = false
          ∧ stopScenario.status.message = "Successfully saved 1 profiles!") := by
  refine ⟨?_, ?_, ?_, ?_⟩
  · intro h
    simp [stop_scraping, h]
  · intro h
    simp [stop_scraping, h]
  · intro results pfx total items s hs
    cases items with
    | nil => rfl
    | cons i rest =>
      obtain ⟨st1, acc, cur⟩ := s
      simp only [loopSearches]
      rw [hs]
      simp
  · norm_num [stopScenario, stopEnv, loopSearches, stop_scraping, processAndSave,
      finalizeJob, freshRunningStatus, deduplicate_profiles, dropDupFirst,
      filter_by_quality, sort_by_quality, saveProfilesToCsv, addQuality,
      scenarioProfile, List.insertionSort, List.orderedInsert]
    all_goals decide

/-- C7 witness: the stop clauses applied at an idle status, a fresh running
status, and a concrete halted loop state. -/
theorem stop_cancellation_witness :
    stop_scraping idleStatus = (some StopError.noJobRunning, idleStatus)
      ∧ stop_scraping (freshRunningStatus 3)
        = (none, { freshRunningStatus 3 with running := false, message := "Stopping scraper..." })
      ∧ loopSearches (fun _ => []) "Searching: " 1 ["k"] (idleStatus, [], 0)
        = (idleStatus, [], 0) := by
  have h1 := stop_cancellation idleStatus
  have h2 := stop_cancellation (freshRunningStatus 3)
  exact ⟨h1.1 rfl, h2.2.1 rfl, h1.2.2.1 (fun _ => []) "Searching: " 1 ["k"] (idleStatus, [], 0) rfl⟩

/-- C7 counterexample: in the concrete interleaved run the final message is
the success notice, not a stopped notice — the workflow overwrote the
stopping message while saving the profiles accumulated before the stop. -/
theorem stop_message_counterexample :
    stopScenario.status.message = "Successfully saved 1 profiles!"
      ∧ stopScenario.status.message ≠ "Stopping scraper..."
      ∧ stopScenario.status.found_profiles = 1 := by
  refine ⟨?_, ?_, ?_⟩ <;>
    norm_num [stopScenario, stopEnv, loopSearches, stop_scraping, processAndSave,
      finalizeJob, freshRunningStatus, deduplicate_profiles, dropDupFirst,
      filter_by_quality, sort_by_quality, saveProfilesToCsv, addQuality,
      scenarioProfile, List.insertionSort, List.orderedInsert]
  all_goals decide

/-- An environment whose run raises an exception after construction and a
successful login. -/
def failingEnv : ScrapeEnv :=
  { loginOk := true, searchResults := fun _ => [], companyResults := fun _ => [],
    searchKeywords := [], targetCompanies := [], existingProfiles := [],
    minConfidence := 0, minCompleteness := 0, saveOk := true,
    ctorExn := none, exn := some "boom", now := 7 }

/-- An environment whose collaborator construction itself raises, before the
local `scraper` variable is bound (web_app.py lines 355-356). -/
def ctorFailEnv : ScrapeEnv :=
  { loginOk := true, searchResults := fun _ => [], companyResults := fun _ => [],
    searchKeywords := [], targetCompanies := [], existingProfiles := [],
    minConfidence := 0, minCompleteness := 0, saveOk := true,
    ctorExn := some "chromedriver setup failed", exn := none, now := 9 }

/-- C8 (amended): on every run the `finally` block still clears the running
flag and stamps the end time, and every exception raised in the try body is
caught with the formatted error string recorded; for every failure arising
after the collaborator is constructed the close call also runs and nothing
escapes the workflow — on each such exit path (login failure, no results,
save failure, success, exception); but when constructing the collaborator
itself raises, the close call does not run and the `finally` block raises a
new UnboundLocalError at its `if scraper` test, which escapes the workflow
uncaught (terminating the daemon worker; the host process survives a worker
exception either way). -/
theorem workflow_finalization (env : ScrapeEnv) (st0 : JobStatus) :
    ((run_scraping env st0).status.running = false
      ∧ (run_scraping env st0).status.end_time = some env.now)
      ∧ (env.ctorExn = none
          → (run_scraping env st0).closed = true ∧ (run_scraping env st0).escaped = false)
      ∧ (∀ m, env.ctorExn = none → env.exn = some m → env.loginOk = true
          → (run_scraping env st0).status.error = some ("Scraping failed: " ++ m))
      ∧ (∀ m, env.ctorExn = some m
          → (run_scraping env st0).status.error = some ("Scraping failed: " ++ m)
            ∧ (run_scraping env st0).closed = false
            ∧ (run_scraping env st0).escaped = true) := by
  cases hc : env.ctorExn with
  | some m =>
    refine ⟨?_, ?_, ?_, ?_⟩ <;>
      simp [run_scraping, hc, finalizeJob, handleScrapeError]
  | none =>
    cases hl : env.loginOk <;> cases he : env.exn <;>
      refine ⟨?_, ?_, ?_, ?_⟩ <;>
      simp [run_scraping, hc, hl, he, finalizeJob, handleScrapeError]

/-- C8 counterexample: on a run whose collaborator construction raises, the
close call of the `finally` block does not execute and a new uncaught
exception (the UnboundLocalError of the `if scraper` test) escapes the
workflow — refuting both unconditional terminal cleanup and the claim that
every uncaught workflow failure is caught. -/
theorem cleanup_ctor_counterexample :
    (run_scraping ctorFailEnv idleStatus).closed = false
      ∧ (run_scraping ctorFailEnv idleStatus).escaped = true :=
  ⟨rfl, rfl⟩

/-- C8 witness: the amended finalization theorem applied at a concrete
post-construction failing environment and at a concrete construction-failure
environment, discharging its hypotheses. -/
theorem workflow_finalization_witness :
    (run_scraping failingEnv idleStatus).closed = true
      ∧ (run_scraping failingEnv idleStatus).status.error
          = some ("Scraping failed: " ++ "boom")
      ∧ (run_scraping ctorFailEnv idleStatus).status.error
          = some ("Scraping failed: " ++ "chromedriver setup failed")
      ∧ (run_scraping ctorFailEnv idleStatus).status.running = false := by
  have h1 := workflow_finalization failingEnv idleStatus
  have h2 := workflow_finalization ctorFailEnv idleStatus
  exact ⟨(h1.2.1 rfl).1, h1.2.2.1 "boom" rfl rfl rfl,
    (h2.2.2.2 "chromedriver setup failed" rfl).1, h2.1.1⟩

/-- C9 (amended): on an empty record list the summary generator is total and
returns the empty report — no keys at all — rather than raising; in
particular the two average fields are absent (readers applying a default of 0
observe 0), not present with value 0.0. -/
theorem summary_empty_report :
    generate_summary_report [] = []
      ∧ (generate_summary_report []).lookup "avg_confidence_score" = none
      ∧ (generate_summary_report []).lookup "avg_profile_completeness" = none :=
  ⟨rfl, rfl, rfl⟩

/-- C9 counterexample: the claim reads the empty-input report as a zeroed
report with the averages defined as 0.0, but the source returns the empty
dict, in which the average keys are not present at all. -/
theorem summary_empty_counterexample :
    generate_summary_report [] = []
      ∧ (generate_summary_report []).lookup "avg_confidence_score"
          ≠ some (SummaryVal.num 0) := by
  exact ⟨rfl, by simp [generate_summary_report]⟩

end Scraper
